import Mathlib

set_option maxRecDepth 100000

/-!
Verification of the sign-fetch protocol exchange of the TikTokLive client
excerpt (`TikTokLive/client/web/routes/sign_fetch.py` and
`TikTokLive/client/web/routes/image_download.py`), shallowly embedded in
Lean 4.

Modelling conventions:
* Python byte strings are modelled as `String`.
* Python `dict` objects (the web params, `SimpleCookie`, JSON objects, the
  httpx cookie jar) are modelled as insertion-ordered association lists with
  in-place update (`assocSet`), which matches `d[k] = v` semantics.
* External collaborators (the httpx transport, the betterproto envelope
  decoder) are passed in as explicit functions, exactly as the spec treats
  them (spec section 2 lists them as external).
* A Python exception that is *not* one of the typed `SignAPIError` variants
  (for instance `json.JSONDecodeError` escaping from `response.json()`,
  or a betterproto parse failure) is the `FetchOutcome.pyError` outcome.
-/

/-- Insertion-ordered association-list update, modelling Python `d[k] = v`:
an existing binding is overwritten in place, a new key is appended. -/
def assocSet {κ β : Type} [DecidableEq κ] : List (κ × β) → κ → β → List (κ × β)
  | [], k, v => [(k, v)]
  | (k1, v1) :: rest, k, v =>
    if k1 = k then (k, v) :: rest else (k1, v1) :: assocSet rest k v

/-- Association-list lookup, modelling Python `d.get(k)`. -/
def assocLookup {κ β : Type} [DecidableEq κ] : List (κ × β) → κ → Option β
  | [], _ => none
  | (k1, v1) :: rest, k => if k1 = k then some v1 else assocLookup rest k

/-- Number of entries of an association list carrying the key `k`. -/
def countKey {κ β : Type} [DecidableEq κ] (d : List (κ × β)) (k : κ) : Nat :=
  d.countP (fun e => decide (e.1 = k))

/-- Python `str(x)` for an optional string (`str(None) = "None"`). -/
def pyStr : Option String → String
  | none => "None"
  | some s => s

/-- Python `" ".join(args)`. -/
def pyJoinSpace : List String → String
  | [] => ""
  | [a] => a
  | a :: b :: rest => a ++ " " ++ pyJoinSpace (b :: rest)

/-- Python `%`-formatting of a format string against ONE non-tuple
argument, as in `str(args[0]) % self.retry_after`: `%%` is a literal
percent, exactly one `%s` conversion must occur (a second one raises
`TypeError: not enough arguments`, zero raise `TypeError: not all
arguments converted`), and any other conversion character - or a trailing
`%` - is modelled as a failure (`none`). With a `str` or `None` argument
every such conversion raises in Python as well (`ValueError` for an
unsupported character, `TypeError` for numeric conversions); the `%r` and
`%a` conversions, which Python would accept, cannot occur here because the
format string always ends in `%s seconds.`, so a second conversion of any
kind already fails. -/
def pyFmtAux : List Char → List Char → Bool → Option (List Char)
  | [], _, used => if used then some [] else none
  | c :: rest, arg, used =>
    if c = '%' then
      match rest with
      | [] => none
      | c2 :: r2 =>
        if c2 = '%' then (pyFmtAux r2 arg used).map (fun r => '%' :: r)
        else if c2 = 's' then
          (if used then none else (pyFmtAux r2 arg true).map (fun r => arg ++ r))
        else none
    else (pyFmtAux rest arg used).map (fun r => c :: r)

/-- String-level wrapper for `pyFmtAux`: `none` models the `TypeError` or
`ValueError` raised by Python `%`-formatting. -/
def pyPercentFormat (fmt arg : String) : Option String :=
  match pyFmtAux fmt.data arg.data false with
  | some l => some ⟨l⟩
  | none => none

/-- Python `"-" * n` for an `Int` count: a negative count yields the empty
string, exactly as in Python. -/
def repDash (n : Int) : String := ⟨List.replicate n.toNat '-'⟩

/-- Python whitespace as recognised by `str.strip()`. -/
def pySpaceChar (c : Char) : Bool :=
  c == ' ' || c == '\t' || c == '\n' || c == '\r' || c == '\x0b' || c == '\x0c'

/-- Python `str.strip()`: drops leading and trailing whitespace. -/
def pyStrip (s : String) : String :=
  ⟨((s.data.dropWhile pySpaceChar).reverse.dropWhile pySpaceChar).reverse⟩

/-- Lower-casing of one ASCII character. -/
def pyCharLower (c : Char) : Char :=
  if 'A' ≤ c ∧ c ≤ 'Z' then Char.ofNat (c.toNat + 32) else c

/-- Python `str.lower()` on the ASCII fragment. -/
def pyLower (s : String) : String := ⟨s.data.map pyCharLower⟩

/-- The fixed header label of the rate-limit message box
(`header_text` in `SignatureRateLimitError.format_sign_server_message`).
Note its length is 19. -/
def signHeaderText : String := "SIGN SERVER MESSAGE"

/-- The `header` local of `format_sign_server_message`, built from the
already-stripped message: `"+" + "-"*header_len + " " + header_text + " "
+ "-"*(header_len+padding_len) + "+"`, with `header_len` the Python floor
division `(msg_len - len(header_text)) // 2` and `padding_len` equal to
`int(bool((msg_len - len(header_text)) % 2))`. -/
def signBoxHeaderLine (message : String) : String :=
  let msg_len : Int := message.length
  let header_len : Int := Int.fdiv (msg_len - (signHeaderText.length : Int)) 2
  let padding_len : Int :=
    if Int.fmod (msg_len - (signHeaderText.length : Int)) 2 = 0 then 0 else 1
  "+" ++ repDash header_len ++ " " ++ signHeaderText ++ " "
    ++ repDash (header_len + padding_len) ++ "+"

/-- The `message` local of `format_sign_server_message`:
`"| " + message + " |"`. -/
def signBoxMessageLine (message : String) : String := "| " ++ message ++ " |"

/-- The `footer` local of `format_sign_server_message`:
`"+" + "-" * (msg_len + 2) + "+"`. -/
def signBoxFooterLine (message : String) : String :=
  "+" ++ repDash ((message.length : Int) + 2) ++ "+"

/-- `SignatureRateLimitError.format_sign_server_message`: strips the
message and assembles the boxed block
`"\n\t|\n\t{header}\n\t{message}\n\t{footer}"`. -/
def format_sign_server_message (message : String) : String :=
  let m := pyStrip message
  "\n\t|\n\t" ++ signBoxHeaderLine m ++ "\n\t" ++ signBoxMessageLine m
    ++ "\n\t" ++ signBoxFooterLine m

/-- `SignAPIError.ErrorReason`: the failure discriminants. -/
inductive ErrorReason where
  | RATE_LIMIT
  | CONNECT_ERROR
  | EMPTY_PAYLOAD
  | EMPTY_COOKIES
  | SIGN_NOT_200
deriving DecidableEq

/-- Python `reason.name` for `ErrorReason`. -/
def reasonName : ErrorReason → String
  | .RATE_LIMIT => "RATE_LIMIT"
  | .CONNECT_ERROR => "CONNECT_ERROR"
  | .EMPTY_PAYLOAD => "EMPTY_PAYLOAD"
  | .EMPTY_COOKIES => "EMPTY_COOKIES"
  | .SIGN_NOT_200 => "SIGN_NOT_200"

/-- `SignAPIError`: a typed error with a discriminant and the message
assembled by `SignAPIError.__init__`. -/
structure SignAPIError where
  reason : ErrorReason
  message : String
deriving DecidableEq

/-- `SignAPIError.__init__`: stores the reason and builds the message by
inserting `"[{reason.name}]"` in front of the `*args` strings and joining
them with single spaces. -/
def SignAPIError.ofArgs (reason : ErrorReason) (args : List String) : SignAPIError :=
  { reason := reason,
    message := pyJoinSpace (("[" ++ reasonName reason ++ "]") :: args) }

/-- `SignatureRateLimitError`: the rate-limit error. The source annotates
`retry_after` and `reset_time` as `int`, but the only caller passes raw
`response.headers.get(...)` values, which are optional *strings*; the
fields therefore hold `Option String`. -/
structure SignatureRateLimitError where
  retry_after : Option String
  reset_time : Option String
  toErr : SignAPIError
deriving DecidableEq

/-- `SignatureRateLimitError.__init__`. `arg0 :: argsRest` models the
non-empty `*args` tuple (the source indexes `args[0]`, so an empty tuple
would raise `IndexError`; the only in-repo call passes exactly one
format string). The API message, when truthy, is boxed and appended, and
`args[0]` is `%`-formatted with `str(retry_after)`; when that formatting
raises (see `pyPercentFormat`) the constructor itself raises, modelled as
`none`. -/
def SignatureRateLimitError.ofArgs (retry_after reset_time : Option String)
    (api_message : Option String) (arg0 : String) (argsRest : List String) :
    Option SignatureRateLimitError :=
  let euler_msg : Option String :=
    match api_message with
    | some m => if m = "" then none else some (format_sign_server_message m)
    | none => none
  let args1 : List String :=
    (arg0 :: argsRest) ++ (match euler_msg with | some e => [e] | none => [])
  match pyPercentFormat arg0 (pyStr retry_after) with
  | none => none
  | some a0f =>
    some { retry_after := retry_after, reset_time := reset_time,
           toErr := SignAPIError.ofArgs .RATE_LIMIT (a0f :: args1.tail) }

/-- JSON whitespace skipping. -/
def skipJWs : List Char → List Char
  | [] => []
  | c :: rest =>
    if c = ' ' ∨ c = '\n' ∨ c = '\t' ∨ c = '\r' then skipJWs rest else c :: rest

/-- JSON string-body scanner: consumes up to the closing quote. Escape
sequences are outside the modelled fragment and make the parse fail. -/
def parseJStrAux : List Char → List Char → Option (String × List Char)
  | [], _ => none
  | c :: rest, acc =>
    if c = '"' then some (⟨acc.reverse⟩, rest)
    else if c = '\\' then none
    else parseJStrAux rest (c :: acc)

/-- JSON string parser: expects a leading quote. -/
def parseJStr : List Char → Option (String × List Char)
  | '"' :: rest => parseJStrAux rest []
  | _ => none

/-- Comma-separated `"key": "value"` pair list of a JSON object
(fuel-indexed recursion; the fuel is the remaining input length plus one,
which is always sufficient). -/
def parseJPairs : Nat → List Char → Option (List (String × String) × List Char)
  | 0, _ => none
  | fuel + 1, cs =>
    match parseJStr (skipJWs cs) with
    | none => none
    | some (k, cs1) =>
      match skipJWs cs1 with
      | ':' :: cs2 =>
        match parseJStr (skipJWs cs2) with
        | none => none
        | some (v, cs3) =>
          match skipJWs cs3 with
          | ',' :: cs4 =>
            match parseJPairs fuel cs4 with
            | some (ps, cs5) => some ((k, v) :: ps, cs5)
            | none => none
          | cs4 => some ([(k, v)], cs4)
      | _ => none

/-- Models `response.json()` as used by the 429 branch, restricted to the
fragment the spec documents for 429 bodies (section 6: a JSON object with
optional `message` and `limit_label` *string* fields): flat objects with
unescaped string keys and string values, deduplicated with
last-write-wins as for a Python dict. `none` covers every input outside
this fragment. For an empty, truncated or non-JSON body that is exactly
where `json.loads` raises; for valid JSON outside the fragment (a
non-object value, escaped strings, or an object with non-string values)
the program's behaviour differs case by case (a non-object or a
non-string `message` raises further down the 429 branch, an unrelated
non-string field would not), so theorems invoke this parser only through
a `parseJsonObj body = some j` hypothesis or at concrete inputs where
`json.loads` genuinely raises. -/
def parseJsonObj (s : String) : Option (List (String × String)) :=
  match skipJWs s.data with
  | '\x7b' :: cs =>
    match skipJWs cs with
    | '\x7d' :: cs2 => if skipJWs cs2 = [] then some [] else none
    | cs3 =>
      match parseJPairs (cs3.length + 1) cs3 with
      | some (ps, rest) =>
        match skipJWs rest with
        | '\x7d' :: rest2 =>
          if skipJWs rest2 = [] then
            some (ps.foldl (fun acc kv => assocSet acc kv.1 kv.2) [])
          else none
        | _ => none
      | none => none
  | _ => none

/-- Reserved cookie-attribute keys (`Morsel._reserved` of `http.cookies`,
lower-cased). -/
def cookieReserved : List String :=
  ["expires", "path", "comment", "domain", "max-age", "secure", "httponly",
   "version", "samesite"]

/-- Valueless attribute flags (`Morsel._flags`). -/
def cookieFlags : List String := ["secure", "httponly"]

/-- Legal cookie scan-key characters (`_LegalKeyChars` of `http.cookies`):
ASCII word characters plus a fixed punctuation set. -/
def legalKeyChar (c : Char) : Bool :=
  c.isAlphanum || c = '_' || c = '\x7b' || c = '\x7d' ||
    "!#%&\x27~\x60><@,:/$*+-.^|)(?=".data.contains c

/-- Legal cookie scan-value characters (`_LegalValueChars`): the key
characters plus square brackets. -/
def legalValueChar (c : Char) : Bool :=
  legalKeyChar c || c = '[' || c = ']'

/-- Characters legal when *setting* a morsel key (`_LegalChars` checked by
`Morsel.set` via `_is_legal_key`). Strictly narrower than the scan set:
for instance `@`, `,`, `{`, `}`, `(`, `)` scan but may not be set, which
is exactly how `jar.load` comes to raise `CookieError`. -/
def legalSetKeyChar (c : Char) : Bool :=
  c.isAlphanum || "!#$%&\x27*+-.^_\x60|~:".data.contains c

/-- The terminator `\s*(\s+|;|$)` of `_CookiePattern`: consumes the run of
whitespace and, when one follows, the semicolon; fails when no whitespace
was present and the next character is neither `;` nor the end. -/
def cookieTerm (cs : List Char) : Option (List Char) :=
  let sp := cs.takeWhile pySpaceChar
  let cs2 := cs.drop sp.length
  match cs2 with
  | ';' :: rest => some rest
  | [] => some []
  | _ => if sp.length ≥ 1 then some cs2 else none

/-- Body scan of the double-quoted value alternative
`"(?:[^\\"]|\\.)*"`: consumes up to the first unescaped quote. The
accumulator holds the value so far, reversed, including the opening
quote. -/
def quotedValAux : List Char → List Char → Option (String × List Char)
  | [], _ => none
  | '"' :: rest, acc => some (⟨('"' :: acc).reverse⟩, rest)
  | '\\' :: c :: rest, acc => quotedValAux rest (c :: '\\' :: acc)
  | ['\\'], _ => none
  | c :: rest, acc => quotedValAux rest (c :: acc)

/-- The double-quoted value alternative: the raw value keeps its quotes
and escapes (they are undone later by `cookieUnquote`). -/
def quotedVal : List Char → Option (String × List Char)
  | '"' :: rest => quotedValAux rest ['"']
  | _ => none

/-- One fixed-width run of the `expires` date alternative. -/
def expiresRun (p : Char → Bool) (k : Nat) (cs : List Char) :
    Option (List Char × List Char) :=
  let run := cs.take k
  if run.length = k ∧ run.all p then some (run, cs.drop k) else none

/-- The `expires` date alternative
`\w{3},\s[\w\d\s-]{9,11}\s[\d:]{8}\sGMT` of `_CookiePattern`, with the
greedy 11-down-to-9 backtracking of the middle run. -/
def expiresVal (cs : List Char) : Option (String × List Char) :=
  let isW := fun c : Char => c.isAlphanum || c = '_'
  let isMid := fun c : Char => c.isAlphanum || c = '_' || pySpaceChar c || c = '-'
  let isClk := fun c : Char => c.isDigit || c = ':'
  match cs with
  | a :: b :: c :: ',' :: s1 :: rest =>
    if isW a ∧ isW b ∧ isW c ∧ pySpaceChar s1 then
      (List.range 3).foldl
        (fun found i =>
          match found with
          | some r => some r
          | none =>
            match expiresRun isMid (11 - i) rest with
            | none => none
            | some (mid, rest2) =>
              match rest2 with
              | s2 :: rest3 =>
                if pySpaceChar s2 then
                  match expiresRun isClk 8 rest3 with
                  | none => none
                  | some (clk, rest4) =>
                    match rest4 with
                    | s3 :: 'G' :: 'M' :: 'T' :: rest5 =>
                      if pySpaceChar s3 then
                        some (⟨[a, b, c, ',', s1] ++ mid ++ [s2] ++ clk
                          ++ [s3, 'G', 'M', 'T']⟩, rest5)
                      else none
                    | _ => none
                else none
              | _ => none)
        none
    else none
  | _ => none

/-- The value part of one `_CookiePattern` match, tried at the position
right after `\s*=\s*`: the quoted alternative, then the `expires` date
alternative, then the greedy word alternative, each required to be
followed by the terminator. Shrinking the word alternative can never help
(word characters are neither whitespace nor `;`), so no further
backtracking is needed. -/
def cookieMatchVal (cs : List Char) : Option (String × List Char) :=
  match (match quotedVal cs with
         | some (v, r) =>
           (match cookieTerm r with
            | some r2 => some (v, r2)
            | none => none)
         | none => none) with
  | some res => some res
  | none =>
    match (match expiresVal cs with
           | some (v, r) =>
             (match cookieTerm r with
              | some r2 => some (v, r2)
              | none => none)
           | none => none) with
    | some res => some res
    | none =>
      let v := cs.takeWhile legalValueChar
      match cookieTerm (cs.drop v.length) with
      | some r2 => some (⟨v⟩, r2)
      | none => none

/-- One completion attempt for a fixed key: first the optional value group
`(\s*=\s*val)?` taken (as the regex prefers), then the group skipped with
the terminator tried directly after the key. -/
def tryComplete (accRev : List Char) (rest : List Char) :
    Option (String × Option String × List Char) :=
  let key : String := ⟨accRev.reverse⟩
  match (match rest.dropWhile pySpaceChar with
         | '=' :: r2 =>
           (match cookieMatchVal (r2.dropWhile pySpaceChar) with
            | some (v, r4) => some (key, some v, r4)
            | none => none)
         | _ => none) with
  | some res => some res
  | none =>
    match cookieTerm rest with
    | some r2 => some (key, none, r2)
    | none => none

/-- The lazy `[_LegalKeyChars]+?` key: starting from one character, the
key is extended only while no completion of the rest of the pattern
succeeds, exactly like the regex engine's lazy backtracking. -/
def cookieMatchAux (accRev : List Char) (rest : List Char) :
    Option (String × Option String × List Char) :=
  match tryComplete accRev rest with
  | some res => some res
  | none =>
    match rest with
    | c :: rest2 =>
      if legalKeyChar c then cookieMatchAux (c :: accRev) rest2 else none
    | [] => none
termination_by structural rest

/-- One `_CookiePattern.match` step: leading whitespace, the lazy key, the
optional value group and the terminator. `none` is a failed match (the
scan loop then breaks, keeping what was parsed so far). -/
def cookieMatch (cs : List Char) : Option (String × Option String × List Char) :=
  match cs.dropWhile pySpaceChar with
  | c :: rest => if legalKeyChar c then cookieMatchAux [c] rest else none
  | [] => none

/-- One parsed item of the scan pass of
`http.cookies.BaseCookie.__parse_string`: an attribute or a key-value
morsel (with its still-quoted raw value). -/
inductive CkItem where
  | attr (key : String)
  | kv (key : String) (rawVal : String)
deriving DecidableEq

/-- The scan pass of `__parse_string` (fuel-indexed; each match consumes
at least one character, so the initial fuel `length + 1` never runs out).
Mirrors CPython exactly: a failed match breaks and keeps the prefix; a
reserved key before any morsel, a bare reserved non-flag key, or a bare
non-reserved key make the whole cookie string invalid (`return`), i.e.
`none` here - the caller then stores *nothing*; `$`-keys before a morsel
are skipped, afterwards they become attributes named without the `$`. -/
def cookieScan : Nat → List Char → Bool → List CkItem → Option (List CkItem)
  | _, [], _, acc => some acc.reverse
  | 0, _, _, acc => some acc.reverse
  | fuel + 1, cs, seen, acc =>
    match cookieMatch cs with
    | none => some acc.reverse
    | some (key, val?, rest) =>
      if key.data.head? = some '$' then
        if ¬ seen then cookieScan fuel rest seen acc
        else cookieScan fuel rest seen (.attr ⟨key.data.tail⟩ :: acc)
      else if cookieReserved.contains (pyLower key) then
        if ¬ seen then none
        else
          match val? with
          | none =>
            if cookieFlags.contains (pyLower key) then
              cookieScan fuel rest seen (.attr key :: acc)
            else none
          | some _ => cookieScan fuel rest seen (.attr key :: acc)
      else
        match val? with
        | none => none
        | some v => cookieScan fuel rest true (.kv key v :: acc)

/-- The unescaping loop of `http.cookies._unquote` on the quote-stripped
value: `\ooo` octal escapes (first digit 0-3) decode to the character,
any other `\c` decodes to `c`, and a trailing lone backslash is kept. -/
def cookieUnescape : List Char → List Char
  | [] => []
  | ['\\'] => ['\\']
  | '\\' :: c1 :: c2 :: c3 :: rest =>
    if ('0' ≤ c1 ∧ c1 ≤ '3') ∧ ('0' ≤ c2 ∧ c2 ≤ '7') ∧ ('0' ≤ c3 ∧ c3 ≤ '7') then
      Char.ofNat ((c1.toNat - 48) * 64 + (c2.toNat - 48) * 8 + (c3.toNat - 48))
        :: cookieUnescape rest
    else c1 :: cookieUnescape (c2 :: c3 :: rest)
  | '\\' :: c1 :: rest => c1 :: cookieUnescape rest
  | c :: rest => c :: cookieUnescape rest

/-- `http.cookies._unquote`: values shorter than two characters, or not
surrounded by double quotes, pass through; otherwise the quotes are
stripped and the escapes undone. -/
def cookieUnquote (v : String) : String :=
  if 2 ≤ v.length ∧ v.data.head? = some '"' ∧ v.data.getLast? = some '"' then
    ⟨cookieUnescape ((v.data.drop 1).dropLast)⟩
  else v

/-- The application pass of `__parse_string`: attributes are assigned to
the current morsel (`Morsel.__setitem__` raises `CookieError` for a
non-reserved attribute name, which reaches us only from `$`-keys), and
key-value pairs go through `Morsel.set`, which raises `CookieError` for a
key holding a character outside `_LegalChars`. `none` models the raised
`CookieError`; the accumulator is the `SimpleCookie` dict, so repeated
names overwrite in place. -/
def cookieApply : List CkItem → List (String × String) → Bool →
    Option (List (String × String))
  | [], acc, _ => some acc
  | .attr k :: rest, acc, seen =>
    if ¬ seen then none
    else if cookieReserved.contains (pyLower k) then cookieApply rest acc seen
    else none
  | .kv k v :: rest, acc, _ =>
    if cookieReserved.contains (pyLower k) then none
    else if k.data = [] ∨ ¬ (k.data.all legalSetKeyChar) then none
    else cookieApply rest (assocSet acc k (cookieUnquote v)) true

/-- Models `SimpleCookie(); jar.load(header)` followed by `jar.items()`.
`some ms` is the resulting named-cookie dict in insertion order; `none`
models a raised `http.cookies.CookieError`. An invalid cookie string
(the scan pass's silent `return`) stores nothing, so it yields
`some []`. -/
def simpleCookieLoad (s : String) : Option (List (String × String)) :=
  match cookieScan (s.length + 1) s.data false [] with
  | none => some []
  | some items => cookieApply items [] false

/-- The buffered httpx response: status code, headers and the eagerly read
body (`data = await response.aread()`), with bytes modelled as `String`. -/
structure Response where
  status_code : Nat
  headers : List (String × String)
  body : String
deriving DecidableEq

/-- Python `", ".join(values)`. -/
def pyJoinCommaSpace : List String → String
  | [] => ""
  | [a] => a
  | a :: b :: rest => a ++ ", " ++ pyJoinCommaSpace (b :: rest)

/-- `response.headers.get(name)`: case-insensitive; httpx joins the values
of repeated same-named headers with `", "`. -/
def headersGet (hs : List (String × String)) (name : String) : Option String :=
  match (hs.filter (fun e => pyLower e.1 == pyLower name)).map (fun e => e.2) with
  | [] => none
  | vs => some (pyJoinCommaSpace vs)

/-- The decoded envelope (`WebcastResponse`), restricted to the fields this
core consumes: `cursor` and `internal_ext`. The payload list is opaque to
the orchestrator and not modelled. -/
structure WebcastResponse where
  cursor : String
  internal_ext : String
deriving DecidableEq

/-- The shared session state: the web params dict (`self._web.params`) and
the cookie jar (`self._web.cookies`), keyed by `(name, domain)`. -/
structure SessionState where
  params : List (String × String)
  cookies : List ((String × String) × String)
deriving DecidableEq

/-- The fixed domain every extracted cookie is filed under. -/
def ttRootDomain : String := ".tiktok.com"

/-- Lower-case hexadecimal digit. -/
def hexDigit (n : Nat) : Char :=
  if n < 10 then Char.ofNat (48 + n) else Char.ofNat (87 + n)

/-- The escape of one byte inside `bytes.__repr__` with quote character
`q`: backslash and the quote are backslash-escaped, tab, newline and
carriage return use their mnemonic escapes, printable ASCII (0x20-0x7e)
passes through, and every other byte becomes `\xNN` in lower-case hex. -/
def pyByteEsc (q : Char) (c : Char) : List Char :=
  if c = '\\' then ['\\', '\\']
  else if c = q then ['\\', q]
  else if c = '\t' then ['\\', 't']
  else if c = '\n' then ['\\', 'n']
  else if c = '\r' then ['\\', 'r']
  else if 0x20 ≤ c.toNat ∧ c.toNat ≤ 0x7e then [c]
  else ['\\', 'x', hexDigit (c.toNat / 16 % 16), hexDigit (c.toNat % 16)]

/-- Python `str(bytes)` = `bytes.__repr__` as interpolated into the
`SIGN_NOT_200` f-string: `b` plus the quoted, escaped bytes. The quote is
a single quote unless the bytes contain one and no double quote, in which
case double quotes are used. Bytes are modelled as characters with code
points below 256. -/
def pyBytesRepr (s : String) : String :=
  let q : Char :=
    if s.data.contains '\x27' ∧ ¬ s.data.contains '"' then '"' else '\x27'
  ⟨['b', q] ++ (s.data.foldr (fun c acc => pyByteEsc q c ++ acc) []) ++ [q]⟩

/-- The result of `SignFetchRoute._update_tiktok_cookies`: the updated
state, the typed `EMPTY_COOKIES` error, or an `http.cookies.CookieError`
escaping `jar.load` (an untyped Python exception). -/
inductive CookieUpdateResult where
  | ok (st : SessionState)
  | emptyCookies (e : SignAPIError)
  | cookieError (msg : String)
deriving DecidableEq

/-- `SignFetchRoute._update_tiktok_cookies`: raises `EMPTY_COOKIES` when
the `X-Set-TT-Cookie` header is falsy (absent *or* the empty string - the
source tests `if not cookies_header`); otherwise `jar.load` parses it
(possibly raising `CookieError`, possibly silently discarding an invalid
string) and each resulting morsel is upserted into the jar under the
fixed domain `".tiktok.com"`. -/
def updateTikTokCookies (st : SessionState) (resp : Response) :
    CookieUpdateResult :=
  match headersGet resp.headers "X-Set-TT-Cookie" with
  | none => .emptyCookies (SignAPIError.ofArgs .EMPTY_COOKIES
      ["Sign server did not return cookies!"])
  | some h =>
    if h = "" then
      .emptyCookies (SignAPIError.ofArgs .EMPTY_COOKIES
        ["Sign server did not return cookies!"])
    else
      match simpleCookieLoad h with
      | none => .cookieError "http.cookies.CookieError"
      | some jar =>
        .ok { st with
          cookies := jar.foldl
            (fun c p => assocSet c (p.1, ttRootDomain) p.2) st.cookies }

/-- The result of one call of `SignFetchRoute.__call__`: either the decoded
envelope, a typed `SignAPIError` (the rate-limit subclass kept separately
so its extra fields stay visible), or an untyped Python exception escaping
the method (`pyError`). -/
inductive FetchOutcome where
  | ok (resp : WebcastResponse)
  | apiError (e : SignAPIError)
  | rateLimited (e : SignatureRateLimitError)
  | pyError (msg : String)
deriving DecidableEq

/-- The response-classification part of `SignFetchRoute.__call__`, from the
`data = await response.aread()` line on, paired with the resulting session
state. `decodeWebcast` is the external betterproto decoder
(`WebcastResponse().parse`); `signServerMessageDisabled` is the truthiness
of the `SIGN_SERVER_MESSAGE_DISABLED` environment variable. -/
def signFetchCall (decodeWebcast : String → Option WebcastResponse)
    (signServerMessageDisabled : Bool) (st : SessionState) (resp : Response) :
    FetchOutcome × SessionState :=
  let data := resp.body
  if resp.status_code = 429 then
    match parseJsonObj resp.body with
    | none => (.pyError "json.decoder.JSONDecodeError", st)
    | some data_json =>
      let server_message : Option String :=
        if signServerMessageDisabled then none
        else assocLookup data_json "message"
      let limit_label : String :=
        match assocLookup data_json "limit_label" with
        | some l => if l = "" then "" else "(" ++ l ++ ") "
        | none => ""
      match SignatureRateLimitError.ofArgs
          (headersGet resp.headers "RateLimit-Reset")
          (headersGet resp.headers "X-RateLimit-Reset")
          server_message
          (limit_label ++ "Too many connections started, try again in %s seconds.")
          [] with
      | some e => (.rateLimited e, st)
      | none => (.pyError "str % formatting raised in SignatureRateLimitError", st)
  else if data = "" then
    (.apiError (SignAPIError.ofArgs .EMPTY_PAYLOAD
      ["Sign API returned an empty request. Are you being detected by TikTok?"]), st)
  else if resp.status_code ≠ 200 then
    (.apiError (SignAPIError.ofArgs .SIGN_NOT_200
      ["Failed request to Sign API with status code "
        ++ toString resp.status_code ++ " and payload \""
        ++ pyBytesRepr resp.body ++ "\"."]), st)
  else
    match decodeWebcast resp.body with
    | none => (.pyError "betterproto parse failure", st)
    | some webcast_response =>
      match updateTikTokCookies st resp with
      | .emptyCookies e => (.apiError e, st)
      | .cookieError m => (.pyError m, st)
      | .ok st1 =>
        (.ok webcast_response,
         { st1 with
           params := assocSet (assocSet st1.params "cursor" webcast_response.cursor)
             "internal_ext" webcast_response.internal_ext })

/-- `SignFetchRoute.__call__` including the transport step: a connection
failure of the external transport (`httpx.ConnectError`) becomes the
`CONNECT_ERROR` variant before any response is read. -/
def signFetchCallTop (decodeWebcast : String → Option WebcastResponse)
    (signServerMessageDisabled : Bool) (st : SessionState)
    (transport : Except String Response) : FetchOutcome × SessionState :=
  match transport with
  | .error _ => (.apiError (SignAPIError.ofArgs .CONNECT_ERROR
      ["Failed to connect to the sign server due to an httpx.ConnectError!"]), st)
  | .ok resp => signFetchCall decodeWebcast signServerMessageDisabled st resp

/-- Whether an outcome is one of the five typed `SignAPIError` variants. -/
def FetchOutcome.isSignError : FetchOutcome → Bool
  | .apiError _ => true
  | .rateLimited _ => true
  | _ => false

/-- The discriminant carried by an error outcome, if any. -/
def FetchOutcome.reasonOf : FetchOutcome → Option ErrorReason
  | .apiError e => some e.reason
  | .rateLimited _ => some .RATE_LIMIT
  | _ => none

/-- The rate-limit error carried by an outcome, if any. -/
def FetchOutcome.rateLimitOf : FetchOutcome → Option SignatureRateLimitError
  | .rateLimited e => some e
  | _ => none

/-- The message of an error outcome, if any. -/
def FetchOutcome.messageOf : FetchOutcome → Option String
  | .apiError e => some e.message
  | .rateLimited e => some e.toErr.message
  | _ => none

/-- The discriminant of a typed cookie-update failure, if any (untyped
`CookieError` failures carry no discriminant). -/
def cookieUpdateReason : CookieUpdateResult → Option ErrorReason
  | .emptyCookies e => some e.reason
  | _ => none

/-- A betterproto `Image` message, restricted to the consumed field. -/
structure Image where
  url_list : List String
deriving DecidableEq

/-- `ImageFetchRoute.__call__`: picks `image.url_list[0]` for an `Image`
input (the whole string for a `str` input) *before* issuing the GET, then
returns the raw response body. The result pairs the returned body (none
models the `IndexError` of `url_list[0]` on an empty list) with the list
of URLs actually requested. -/
def imageFetchCall (transport : String → String) (image : String ⊕ Image) :
    Option String × List String :=
  match (match image with
         | .inl s => some s
         | .inr im => im.url_list.head?) with
  | none => (none, [])
  | some u => (some (transport u), [u])

/-- A fixed envelope decoder for concrete evaluations. -/
def decodeW0 : String → Option WebcastResponse :=
  fun _ => some { cursor := "cursor0", internal_ext := "ext0" }

/-- The empty session state used by concrete evaluations. -/
def st0 : SessionState := { params := [], cookies := [] }

/-- The concrete message of the C6 width witness (length 21 ≥ 19). -/
def msgW6 : String := "Too many connections!"

/-- The C5 scenario: status 429, both reset headers, JSON body with
`message` and `limit_label`. -/
def respRL : Response :=
  { status_code := 429,
    headers := [("RateLimit-Reset", "30"), ("X-RateLimit-Reset", "1700000000")],
    body := "\x7b\"message\": \"slow down\", \"limit_label\": \"ip\"\x7d" }

/-- A 429 response with an empty body. -/
def respEmpty429 : Response :=
  { status_code := 429, headers := [], body := "" }

/-- A 429 response with an empty JSON object body and no reset headers. -/
def resp429NoHdrs : Response :=
  { status_code := 429, headers := [], body := "\x7b\x7d" }

/-- A non-200, non-429 response with an empty body. -/
def respEmpty503 : Response :=
  { status_code := 503, headers := [], body := "" }

/-- A non-200, non-429 response with a non-empty body. -/
def resp503 : Response :=
  { status_code := 503, headers := [], body := "oops" }

/-- A non-200, non-429 response whose body holds a real newline: its
Python `repr` shows the two characters `\n` instead. -/
def respNL : Response :=
  { status_code := 503, headers := [], body := "line1\nline2" }

/-- A 200 response, non-empty body, no `X-Set-TT-Cookie` header. -/
def respNoCookie : Response :=
  { status_code := 200, headers := [], body := "x" }

/-- A 200 response whose `X-Set-TT-Cookie` header is present but empty. -/
def respEmptyCookieHdr : Response :=
  { status_code := 200, headers := [("X-Set-TT-Cookie", "")], body := "x" }

/-- A 200 response whose `X-Set-TT-Cookie` header is present but invalid
(a bare key): `SimpleCookie.load` silently stores nothing for it. -/
def respBadCookieHdr : Response :=
  { status_code := 200, headers := [("X-Set-TT-Cookie", "!!!")], body := "x" }

/-- A 200 response whose `X-Set-TT-Cookie` header scans but holds the key
`@`, which `Morsel.set` refuses: `jar.load` raises `CookieError`. -/
def respAtCookieHdr : Response :=
  { status_code := 200, headers := [("X-Set-TT-Cookie", "@=x")], body := "x" }

/-- A fully successful 200 response with two cookies. -/
def respGood : Response :=
  { status_code := 200,
    headers := [("X-Set-TT-Cookie", "sessionid=abc; tt-csrf=xyz")],
    body := "x" }

/-- The typed error produced for a 200 response without cookie header. -/
def e0 : SignAPIError :=
  SignAPIError.ofArgs .EMPTY_COOKIES ["Sign server did not return cookies!"]

/-- The rate-limit error produced for `resp429NoHdrs`. -/
def e1 : SignatureRateLimitError :=
  { retry_after := none, reset_time := none,
    toErr := SignAPIError.ofArgs .RATE_LIMIT
      ["Too many connections started, try again in None seconds."] }

/-- A concrete two-URL image. -/
def imgW : Image := { url_list := ["u1", "u2"] }

/-- A concrete image with an empty URL list. -/
def imgEmpty : Image := { url_list := [] }

/-! ## Helper lemmas about the association-list model -/

theorem assocLookup_assocSet_self {κ β : Type} [DecidableEq κ]
    (d : List (κ × β)) (k : κ) (v : β) :
    assocLookup (assocSet d k v) k = some v := by
  induction d with
  | nil => simp [assocSet, assocLookup]
  | cons e rest ih =>
    obtain ⟨k1, v1⟩ := e
    by_cases h : k1 = k
    · simp [assocSet, h, assocLookup]
    · simp [assocSet, h, assocLookup, ih]

theorem assocLookup_assocSet_ne {κ β : Type} [DecidableEq κ]
    (d : List (κ × β)) (k k' : κ) (v : β) (hne : k' ≠ k) :
    assocLookup (assocSet d k v) k' = assocLookup d k' := by
  induction d with
  | nil => simp [assocSet, assocLookup, Ne.symm hne]
  | cons e rest ih =>
    obtain ⟨k1, v1⟩ := e
    by_cases h : k1 = k
    · subst h
      simp [assocSet, assocLookup, Ne.symm hne]
    · simp [assocSet, h, assocLookup, ih]

theorem countKey_assocSet_self {κ β : Type} [DecidableEq κ]
    (d : List (κ × β)) (k : κ) (v : β) :
    countKey (assocSet d k v) k = max 1 (countKey d k) := by
  induction d with
  | nil => simp [assocSet, countKey]
  | cons e rest ih =>
    obtain ⟨k1, v1⟩ := e
    by_cases h : k1 = k
    · subst h
      simp [assocSet, countKey, List.countP_cons]
    · simp only [assocSet, if_neg h, countKey, List.countP_cons] at ih ⊢
      simp [h, ih]

theorem countKey_assocSet_ne {κ β : Type} [DecidableEq κ]
    (d : List (κ × β)) (k k' : κ) (v : β) (hne : k' ≠ k) :
    countKey (assocSet d k v) k' = countKey d k' := by
  induction d with
  | nil => simp [assocSet, countKey, Ne.symm hne]
  | cons e rest ih =>
    obtain ⟨k1, v1⟩ := e
    by_cases h : k1 = k
    · subst h
      simp [assocSet, countKey, List.countP_cons, Ne.symm hne]
    · simp only [assocSet, if_neg h, countKey, List.countP_cons] at ih ⊢
      simp [ih]

theorem countKey_assocSet_le_one {κ β : Type} [DecidableEq κ]
    (d : List (κ × β)) (k : κ) (v : β) (hd : ∀ m, countKey d m ≤ 1) (n : κ) :
    countKey (assocSet d k v) n ≤ 1 := by
  by_cases h : n = k
  · subst h
    rw [countKey_assocSet_self]
    have := hd n
    omega
  · rw [countKey_assocSet_ne _ _ _ _ h]
    exact hd n

theorem countKey_pos_of_mem {κ β : Type} [DecidableEq κ]
    {d : List (κ × β)} {n : κ} {v : β} (h : (n, v) ∈ d) :
    1 ≤ countKey d n := by
  have : 0 < d.countP (fun e => decide (e.1 = n)) :=
    List.countP_pos_iff.mpr ⟨(n, v), h, by simp⟩
  simpa [countKey] using this

theorem repDash_length (n : Int) : (repDash n).length = n.toNat := by
  show (List.replicate n.toNat '-').length = n.toNat
  simp

/-! ## Helper lemmas about the cookie-jar fold of `updateTikTokCookies` -/

theorem foldTT_lookup_notmem (ms : List (String × String))
    (jar : List ((String × String) × String)) (n dom : String)
    (hn : ∀ p ∈ ms, p.1 ≠ n) :
    assocLookup (ms.foldl (fun c p => assocSet c (p.1, ttRootDomain) p.2) jar) (n, dom)
      = assocLookup jar (n, dom) := by
  induction ms generalizing jar with
  | nil => rfl
  | cons p rest ih =>
    rw [List.foldl_cons, ih _ (fun q hq => hn q (List.mem_cons_of_mem _ hq))]
    exact assocLookup_assocSet_ne _ _ _ _
      (fun hEq => hn p (List.mem_cons_self _ _) (congrArg Prod.fst hEq).symm)

theorem foldTT_count_notmem (ms : List (String × String))
    (jar : List ((String × String) × String)) (n dom : String)
    (hn : ∀ p ∈ ms, p.1 ≠ n) :
    countKey (ms.foldl (fun c p => assocSet c (p.1, ttRootDomain) p.2) jar) (n, dom)
      = countKey jar (n, dom) := by
  induction ms generalizing jar with
  | nil => rfl
  | cons p rest ih =>
    rw [List.foldl_cons, ih _ (fun q hq => hn q (List.mem_cons_of_mem _ hq))]
    exact countKey_assocSet_ne _ _ _ _
      (fun hEq => hn p (List.mem_cons_self _ _) (congrArg Prod.fst hEq).symm)

theorem foldTT_wf (ms : List (String × String))
    (jar : List ((String × String) × String))
    (hwf : ∀ k, countKey jar k ≤ 1) :
    ∀ k, countKey (ms.foldl (fun c p => assocSet c (p.1, ttRootDomain) p.2) jar) k ≤ 1 := by
  induction ms generalizing jar with
  | nil => exact hwf
  | cons p rest ih =>
    rw [List.foldl_cons]
    exact ih _ (countKey_assocSet_le_one _ _ _ hwf)

theorem countKey_cons {κ β : Type} [DecidableEq κ] (p : κ × β)
    (rest : List (κ × β)) (n : κ) :
    countKey (p :: rest) n = countKey rest n + (if p.1 = n then 1 else 0) := by
  simp [countKey, List.countP_cons]

theorem countKey_tail_eq_zero {rest : List (String × String)} {p : String × String}
    {n : String} (hp1 : p.1 = n) (hcnt : countKey (p :: rest) n = 1) :
    countKey rest n = 0 := by
  rw [countKey_cons, if_pos hp1] at hcnt
  omega

theorem notmem_keys_of_countKey_zero {rest : List (String × String)} {n : String}
    (hzero : countKey rest n = 0) : ∀ q ∈ rest, q.1 ≠ n := by
  intro q hq hq1
  have hqe : ((n : String), q.2) = q := by
    rw [← hq1]
  have hpos : 1 ≤ countKey rest n := countKey_pos_of_mem (by rw [hqe]; exact hq)
  omega

theorem countKey_head_ne {rest : List (String × String)} {p : String × String}
    {n v : String} (hMem : (n, v) ∈ rest) (hcnt : countKey (p :: rest) n = 1) :
    p.1 ≠ n := by
  intro hp
  have h1 : 1 ≤ countKey rest n := countKey_pos_of_mem hMem
  rw [countKey_cons, if_pos hp] at hcnt
  omega

theorem countKey_tail_eq_one {rest : List (String × String)} {p : String × String}
    {n : String} (hp1 : p.1 ≠ n) (hcnt : countKey (p :: rest) n = 1) :
    countKey rest n = 1 := by
  rw [countKey_cons, if_neg hp1] at hcnt
  omega

theorem foldTT_lookup_mem (ms : List (String × String))
    (jar : List ((String × String) × String)) (n v : String)
    (hmem : (n, v) ∈ ms) (hcnt : countKey ms n = 1) :
    assocLookup (ms.foldl (fun c p => assocSet c (p.1, ttRootDomain) p.2) jar)
      (n, ttRootDomain) = some v := by
  induction ms generalizing jar with
  | nil => cases hmem
  | cons p rest ih =>
    rw [List.foldl_cons]
    rcases List.mem_cons.mp hmem with hEq | hMem
    · have hp1 : p.1 = n := by rw [← hEq]
      have hp2 : p.2 = v := by rw [← hEq]
      have hrest := notmem_keys_of_countKey_zero (countKey_tail_eq_zero hp1 hcnt)
      rw [foldTT_lookup_notmem rest _ n _ hrest, hp1, hp2]
      exact assocLookup_assocSet_self _ _ _
    · have hp1 : p.1 ≠ n := countKey_head_ne hMem hcnt
      apply ih <;> first
        | exact hMem
        | exact countKey_tail_eq_one hp1 hcnt

theorem foldTT_count_mem (ms : List (String × String))
    (jar : List ((String × String) × String)) (n v : String)
    (hmem : (n, v) ∈ ms) (hcnt : countKey ms n = 1)
    (hwf : ∀ k, countKey jar k ≤ 1) :
    countKey (ms.foldl (fun c p => assocSet c (p.1, ttRootDomain) p.2) jar)
      (n, ttRootDomain) = 1 := by
  induction ms generalizing jar with
  | nil => cases hmem
  | cons p rest ih =>
    rw [List.foldl_cons]
    rcases List.mem_cons.mp hmem with hEq | hMem
    · have hp1 : p.1 = n := by rw [← hEq]
      have hrest := notmem_keys_of_countKey_zero (countKey_tail_eq_zero hp1 hcnt)
      rw [foldTT_count_notmem rest _ n _ hrest, hp1, countKey_assocSet_self]
      have := hwf (n, ttRootDomain)
      omega
    · have hp1 : p.1 ≠ n := countKey_head_ne hMem hcnt
      apply ih <;> first
        | exact hMem
        | exact countKey_tail_eq_one hp1 hcnt
        | exact countKey_assocSet_le_one _ _ _ hwf

/-! ## Helper lemmas about the parsed cookie set -/

theorem cookieApply_count_le (items : List CkItem)
    (acc : List (String × String)) (seen : Bool) (ms : List (String × String))
    (n : String) (hacc : ∀ m, countKey acc m ≤ 1)
    (h : cookieApply items acc seen = some ms) :
    countKey ms n ≤ 1 := by
  induction items generalizing acc seen with
  | nil =>
    simp only [cookieApply] at h
    cases h
    exact hacc n
  | cons item rest ih =>
    cases item with
    | attr k =>
      simp only [cookieApply] at h
      revert h
      split
      · intro h; cases h
      · split
        · intro h; exact ih _ _ hacc h
        · intro h; cases h
    | kv k v =>
      simp only [cookieApply] at h
      revert h
      split
      · intro h; cases h
      · split
        · intro h; cases h
        · intro h
          exact ih _ _ (countKey_assocSet_le_one _ _ _ hacc) h

theorem simpleCookieLoad_count_le (s : String) (ms : List (String × String))
    (n : String) (h : simpleCookieLoad s = some ms) :
    countKey ms n ≤ 1 := by
  simp only [simpleCookieLoad] at h
  revert h
  split
  · intro h
    cases h
    simp [countKey]
  · intro h
    exact cookieApply_count_le _ _ _ _ _ (fun m => by simp [countKey]) h

/-! ## Helper lemmas about error messages -/

theorem pyJoinSpace_prefix_data (x : String) (xs : List String) :
    x.data <+: (pyJoinSpace (x :: xs)).data := by
  cases xs with
  | nil => simp [pyJoinSpace]
  | cons b rest =>
    show x.data <+: ((x ++ " ") ++ pyJoinSpace (b :: rest)).data
    rw [String.data_append, String.data_append, List.append_assoc]
    exact List.prefix_append _ _

theorem ofArgs_message_tagged (r : ErrorReason) (args : List String) :
    ("[" ++ reasonName r ++ "]").data <+: (SignAPIError.ofArgs r args).message.data :=
  pyJoinSpace_prefix_data _ _

theorem updateTikTokCookies_emptyCookies_shape (st : SessionState)
    (resp : Response) (e : SignAPIError)
    (heq : updateTikTokCookies st resp = .emptyCookies e) :
    e = SignAPIError.ofArgs .EMPTY_COOKIES ["Sign server did not return cookies!"] := by
  simp only [updateTikTokCookies] at heq
  revert heq
  split <;> (try split) <;> (try split) <;> intro heq <;> cases heq <;> rfl

theorem rateLimit_ofArgs_shape (ra rt am : Option String) (a0 : String)
    (ar : List String) (e : SignatureRateLimitError)
    (h : SignatureRateLimitError.ofArgs ra rt am a0 ar = some e) :
    e.toErr.reason = .RATE_LIMIT ∧
    ("[RATE_LIMIT]").data <+: e.toErr.message.data := by
  simp only [SignatureRateLimitError.ofArgs] at h
  revert h
  split
  · intro h; cases h
  · intro h
    cases h
    exact ⟨rfl, pyJoinSpace_prefix_data _ _⟩

/-- C1: every response handled by `SignFetchRoute.__call__` that ends in an
error outcome (`CONNECT_ERROR`, `EMPTY_PAYLOAD`, `SIGN_NOT_200`,
`RATE_LIMIT`, or `EMPTY_COOKIES`) leaves the session state (web params and
cookie jar) unmodified; in particular a 200 response with a non-empty
decodable body but no `X-Set-TT-Cookie` header produces `EMPTY_COOKIES`
with the state untouched. Cursor, extension token and cookies are written
only on the fully successful path, after cookie extraction succeeded. -/
theorem C1_error_leaves_state_unmodified
    (dec : String → Option WebcastResponse) (dis : Bool) (st : SessionState) :
    (∀ tr : Except String Response,
      (signFetchCallTop dec dis st tr).1.isSignError = true →
      (signFetchCallTop dec dis st tr).2 = st) ∧
    (∀ resp : Response, ∀ w : WebcastResponse,
      resp.status_code = 200 → resp.body ≠ "" → dec resp.body = some w →
      headersGet resp.headers "X-Set-TT-Cookie" = none →
      (signFetchCall dec dis st resp).1.reasonOf = some .EMPTY_COOKIES ∧
      (signFetchCall dec dis st resp).2 = st) := by
  constructor
  · intro tr
    cases tr with
    | error e => intro _; rfl
    | ok resp =>
      show (signFetchCall dec dis st resp).1.isSignError = true →
        (signFetchCall dec dis st resp).2 = st
      simp only [signFetchCall]
      repeat' split
      all_goals intro h
      all_goals first
        | rfl
        | simp [FetchOutcome.isSignError] at h
  · intro resp w h200 hb hdec hck
    have h429 : ¬ (resp.status_code = 429) := by omega
    have hner : ¬ (resp.status_code ≠ 200) := by omega
    simp only [signFetchCall]
    rw [if_neg h429, if_neg hb, if_neg hner, hdec]
    simp only [updateTikTokCookies]
    rw [hck]
    exact ⟨rfl, rfl⟩

/-- C1 witness: at a concrete 200 response with decodable body and no
cookie header, the outcome is `EMPTY_COOKIES` and the state is untouched. -/
theorem C1_error_leaves_state_unmodified_witness :
    ((signFetchCallTop decodeW0 false st0 (.ok respNoCookie)).2 = st0) ∧
    ((signFetchCall decodeW0 false st0 respNoCookie).1.reasonOf
        = some .EMPTY_COOKIES ∧
      (signFetchCall decodeW0 false st0 respNoCookie).2 = st0) :=
  ⟨(C1_error_leaves_state_unmodified decodeW0 false st0).1 (.ok respNoCookie)
      (by decide),
   (C1_error_leaves_state_unmodified decodeW0 false st0).2 respNoCookie
      { cursor := "cursor0", internal_ext := "ext0" }
      (by decide) (by decide) (by decide) (by decide)⟩

/-- C3 counterexample: a 429 response with an empty (zero-length) body does
*not* produce `EMPTY_PAYLOAD` - the 429 branch runs first and
`response.json()` raises on the empty body. -/
theorem C3_counterexample_429_empty_body :
    (signFetchCall decodeW0 false st0 respEmpty429).1.reasonOf
        ≠ some .EMPTY_PAYLOAD ∧
    (signFetchCall decodeW0 false st0 respEmpty429).1
      = .pyError "json.decoder.JSONDecodeError" :=
  ⟨by decide, by decide⟩

/-- C3 amended: for every response with status different from 429 and an
empty body, the outcome is `EMPTY_PAYLOAD`, regardless of the status code
(in particular the non-200 check never runs first), and the state is
untouched. -/
theorem C3_empty_payload_non429
    (dec : String → Option WebcastResponse) (dis : Bool) (st : SessionState)
    (resp : Response) (h429 : resp.status_code ≠ 429) (hb : resp.body = "") :
    (signFetchCall dec dis st resp).1.reasonOf = some .EMPTY_PAYLOAD ∧
    (signFetchCall dec dis st resp).2 = st := by
  simp only [signFetchCall]
  rw [if_neg h429, if_pos hb]
  exact ⟨rfl, rfl⟩

/-- C3 witness: a concrete empty-body 503 response produces
`EMPTY_PAYLOAD` even though its status is not 200. -/
theorem C3_empty_payload_non429_witness :
    respEmpty503.status_code ≠ 429 ∧ respEmpty503.body = "" ∧
    ((signFetchCall decodeW0 false st0 respEmpty503).1.reasonOf
        = some .EMPTY_PAYLOAD ∧
      (signFetchCall decodeW0 false st0 respEmpty503).2 = st0) :=
  ⟨by decide, rfl,
   C3_empty_payload_non429 decodeW0 false st0 respEmpty503 (by decide) rfl⟩

/-- C4 amended: the cookie update fails with `EMPTY_COOKIES` when the
`X-Set-TT-Cookie` header is absent *or present but empty* (the source
tests Python truthiness, `if not cookies_header`); a present, non-empty
header that `SimpleCookie.load` silently discards as an invalid cookie
string parses to an empty cookie set and is not an error (the state is
returned unchanged); and a present, non-empty header on which
`SimpleCookie.load` raises `CookieError` escapes as an untyped Python
exception rather than a typed `SignAPIError`. -/
theorem C4_cookie_header_falsy_vs_malformed (st : SessionState) (resp : Response) :
    (headersGet resp.headers "X-Set-TT-Cookie" = none ∨
        headersGet resp.headers "X-Set-TT-Cookie" = some "" →
      cookieUpdateReason (updateTikTokCookies st resp) = some .EMPTY_COOKIES) ∧
    (∀ h : String, headersGet resp.headers "X-Set-TT-Cookie" = some h →
      h ≠ "" → simpleCookieLoad h = some [] →
      updateTikTokCookies st resp = .ok st) ∧
    (∀ h : String, headersGet resp.headers "X-Set-TT-Cookie" = some h →
      h ≠ "" → simpleCookieLoad h = none →
      updateTikTokCookies st resp = .cookieError "http.cookies.CookieError") := by
  refine ⟨?_, ?_, ?_⟩
  · rintro (hc | hc) <;> (simp only [updateTikTokCookies, hc]; rfl)
  · intro h hc hne hload
    simp only [updateTikTokCookies, hc]
    rw [if_neg hne, hload]
    rfl
  · intro h hc hne hload
    simp only [updateTikTokCookies, hc]
    rw [if_neg hne, hload]

/-- C4 witness: an absent header errors with `EMPTY_COOKIES`; the invalid
header `"!!!"` (present, non-empty, silently discarded) yields no error
and leaves the state unchanged; the header `"@=x"` (present, non-empty,
a key `Morsel.set` refuses) raises `CookieError`. -/
theorem C4_cookie_header_falsy_vs_malformed_witness :
    cookieUpdateReason (updateTikTokCookies st0 respNoCookie)
      = some .EMPTY_COOKIES ∧
    updateTikTokCookies st0 respBadCookieHdr = .ok st0 ∧
    updateTikTokCookies st0 respAtCookieHdr
      = .cookieError "http.cookies.CookieError" :=
  ⟨(C4_cookie_header_falsy_vs_malformed st0 respNoCookie).1 (Or.inl (by decide)),
   (C4_cookie_header_falsy_vs_malformed st0 respBadCookieHdr).2.1 "!!!"
      (by decide) (by decide) (by decide),
   (C4_cookie_header_falsy_vs_malformed st0 respAtCookieHdr).2.2 "@=x"
      (by decide) (by decide) (by decide)⟩

/-- C4 counterexample: a *present but empty* `X-Set-TT-Cookie` header does
not yield an empty cookie set - it raises `EMPTY_COOKIES`, because the
source's `if not cookies_header` treats the empty string like an absent
header. -/
theorem C4_counterexample_present_empty_header :
    headersGet respEmptyCookieHdr.headers "X-Set-TT-Cookie" = some "" ∧
    cookieUpdateReason (updateTikTokCookies st0 respEmptyCookieHdr)
      = some .EMPTY_COOKIES :=
  ⟨by decide, by decide⟩

/-- C5 (evaluation at the failing input): for the scenario response
(status 429, `RateLimit-Reset: 30`, `X-RateLimit-Reset: 1700000000`, JSON
body with `message` and `limit_label`), the produced error is `RATE_LIMIT`
and its message contains the claimed text, but the typed accessors return
the raw header *strings* `"30"` and `"1700000000"` - not integers, contrary
to the claim and to the constructor's own `int` annotations. -/
theorem C5_rate_limit_scenario_string_values :
    ((signFetchCall decodeW0 false st0 respRL).1.rateLimitOf).map
        SignatureRateLimitError.retry_after = some (some "30") ∧
    ((signFetchCall decodeW0 false st0 respRL).1.rateLimitOf).map
        SignatureRateLimitError.reset_time = some (some "1700000000") ∧
    (signFetchCall decodeW0 false st0 respRL).1.messageOf
      = some ("[RATE_LIMIT] (ip) Too many connections started, try again in 30 seconds. "
          ++ format_sign_server_message "slow down") ∧
    ("(ip) Too many connections started, try again in 30 seconds.").data
      <:+: ((signFetchCall decodeW0 false st0 respRL).1.messageOf.getD "").data :=
  ⟨by decide, by decide, by decide,
   ⟨("[RATE_LIMIT] ").data,
    (" " ++ format_sign_server_message "slow down").data, by decide⟩⟩

/-- C6 counterexample: at the spec's own input `"Too many"` (length 8,
shorter than the 19-character header label), the negative dash counts
collapse to empty strings, so the top border (the header line, width 23)
and the bottom border (the footer, width 12) do *not* have equal width,
and the header text is not centered over the message line. -/
theorem C6_counterexample_too_many :
    format_sign_server_message "Too many"
      = "\n\t|\n\t+ SIGN SERVER MESSAGE +\n\t| Too many |\n\t+----------+" ∧
    (signBoxHeaderLine (pyStrip "Too many")).length = 23 ∧
    (signBoxFooterLine (pyStrip "Too many")).length = 12 ∧
    (signBoxHeaderLine (pyStrip "Too many")).length
      ≠ (signBoxFooterLine (pyStrip "Too many")).length :=
  ⟨by decide, by decide, by decide, by decide⟩

/-- C6 amended: for every message whose stripped form is at least as long
as the header label (19 characters, not 20), the header line, the message
line and the footer all have width `len + 4`, so the top and bottom
borders are equal and the header text is centered up to the one extra
padding dash added on the right when the length difference is odd; the
boxed block is exactly the three lines framed by `"\n\t|\n\t"`. The
construction is total, so empty and oddly-lengthed messages never fail. -/
theorem C6_boxed_widths (m : String) (hlen : 19 ≤ (pyStrip m).length) :
    (signBoxHeaderLine (pyStrip m)).length = (pyStrip m).length + 4 ∧
    (signBoxFooterLine (pyStrip m)).length = (pyStrip m).length + 4 ∧
    (signBoxMessageLine (pyStrip m)).length = (pyStrip m).length + 4 ∧
    format_sign_server_message m
      = "\n\t|\n\t" ++ signBoxHeaderLine (pyStrip m) ++ "\n\t"
        ++ signBoxMessageLine (pyStrip m) ++ "\n\t"
        ++ signBoxFooterLine (pyStrip m) := by
  have h1 : ("+" : String).length = 1 := rfl
  have hsp : (" " : String).length = 1 := rfl
  have hht : signHeaderText.length = 19 := rfl
  have h2 : ("| " : String).length = 2 := rfl
  have h3 : (" |" : String).length = 2 := rfl
  refine ⟨?_, ?_, ?_, rfl⟩
  · simp only [signBoxHeaderLine]
    rw [Int.fdiv_eq_ediv _ (by norm_num), Int.fmod_eq_emod _ (by norm_num)]
    simp only [String.length_append, repDash_length, h1, hsp, hht]
    split <;> omega
  · simp only [signBoxFooterLine]
    simp only [String.length_append, repDash_length, h1]
    omega
  · simp only [signBoxMessageLine]
    simp only [String.length_append, h2, h3]
    omega

/-- C6 witness: the 21-character message produces a box whose three lines
all have width 25. -/
theorem C6_boxed_widths_witness :
    19 ≤ (pyStrip msgW6).length ∧
    ((signBoxHeaderLine (pyStrip msgW6)).length = (pyStrip msgW6).length + 4 ∧
     (signBoxFooterLine (pyStrip msgW6)).length = (pyStrip msgW6).length + 4 ∧
     (signBoxMessageLine (pyStrip msgW6)).length = (pyStrip msgW6).length + 4 ∧
     format_sign_server_message msgW6
       = "\n\t|\n\t" ++ signBoxHeaderLine (pyStrip msgW6) ++ "\n\t"
         ++ signBoxMessageLine (pyStrip msgW6) ++ "\n\t"
         ++ signBoxFooterLine (pyStrip msgW6)) :=
  ⟨by decide, C6_boxed_widths msgW6 (by decide)⟩

/-- C7: for every 200 response with non-empty decodable body and a valid
(non-empty, successfully parsed by `SimpleCookie.load`) `X-Set-TT-Cookie`
header, the call returns the decoded envelope, the session's `cursor` and
`internal_ext` params equal exactly the envelope's fields, and for each
named cookie parsed from the header (repeated names collapse to the last
value already inside the `SimpleCookie` dict) the jar holds exactly one
entry, filed under the fixed domain `".tiktok.com"` rather than any
header-supplied domain. -/
theorem C7_success_updates_state
    (dec : String → Option WebcastResponse) (dis : Bool) (st : SessionState)
    (resp : Response) (w : WebcastResponse) (h : String)
    (ms : List (String × String))
    (h200 : resp.status_code = 200) (hb : resp.body ≠ "")
    (hdec : dec resp.body = some w)
    (hck : headersGet resp.headers "X-Set-TT-Cookie" = some h) (hh : h ≠ "")
    (hload : simpleCookieLoad h = some ms)
    (hwf : ∀ k, countKey st.cookies k ≤ 1) :
    (signFetchCall dec dis st resp).1 = .ok w ∧
    assocLookup (signFetchCall dec dis st resp).2.params "cursor"
      = some w.cursor ∧
    assocLookup (signFetchCall dec dis st resp).2.params "internal_ext"
      = some w.internal_ext ∧
    (∀ n v : String, (n, v) ∈ ms →
      assocLookup (signFetchCall dec dis st resp).2.cookies (n, ttRootDomain)
          = some v ∧
      countKey (signFetchCall dec dis st resp).2.cookies (n, ttRootDomain) = 1) := by
  have h429 : ¬ (resp.status_code = 429) := by omega
  have hner : ¬ (resp.status_code ≠ 200) := by omega
  have hres : signFetchCall dec dis st resp
      = (.ok w,
         { params := assocSet (assocSet st.params "cursor" w.cursor)
             "internal_ext" w.internal_ext,
           cookies := ms.foldl
             (fun c p => assocSet c (p.1, ttRootDomain) p.2) st.cookies }) := by
    simp only [signFetchCall, updateTikTokCookies, hck]
    rw [if_neg h429, if_neg hb, if_neg hner, hdec, if_neg hh, hload]
  rw [hres]
  refine ⟨rfl, ?_, ?_, ?_⟩
  · rw [assocLookup_assocSet_ne _ _ _ _ (by decide)]
    exact assocLookup_assocSet_self _ _ _
  · exact assocLookup_assocSet_self _ _ _
  · intro n v hmem
    have hcnt : countKey ms n = 1 :=
      Nat.le_antisymm (simpleCookieLoad_count_le _ _ _ hload)
        (countKey_pos_of_mem hmem)
    exact ⟨foldTT_lookup_mem _ _ _ _ hmem hcnt,
           foldTT_count_mem _ _ _ _ hmem hcnt hwf⟩

/-- C7 witness: at the concrete successful response carrying two cookies,
the params equal the envelope fields and both cookies sit in the jar once,
under `".tiktok.com"`. -/
theorem C7_success_updates_state_witness :
    ((signFetchCall decodeW0 false st0 respGood).1
        = .ok { cursor := "cursor0", internal_ext := "ext0" } ∧
      assocLookup (signFetchCall decodeW0 false st0 respGood).2.params "cursor"
        = some "cursor0" ∧
      assocLookup (signFetchCall decodeW0 false st0 respGood).2.params "internal_ext"
        = some "ext0") ∧
    (assocLookup (signFetchCall decodeW0 false st0 respGood).2.cookies
        ("sessionid", ttRootDomain) = some "abc" ∧
      countKey (signFetchCall decodeW0 false st0 respGood).2.cookies
        ("sessionid", ttRootDomain) = 1) ∧
    (assocLookup (signFetchCall decodeW0 false st0 respGood).2.cookies
        ("tt-csrf", ttRootDomain) = some "xyz" ∧
      countKey (signFetchCall decodeW0 false st0 respGood).2.cookies
        ("tt-csrf", ttRootDomain) = 1) := by
  have base := C7_success_updates_state decodeW0 false st0 respGood
    { cursor := "cursor0", internal_ext := "ext0" }
    "sessionid=abc; tt-csrf=xyz" [("sessionid", "abc"), ("tt-csrf", "xyz")]
    (by decide) (by decide) (by decide)
    (by decide) (by decide) (by decide) (fun k => by simp [st0, countKey])
  exact ⟨⟨base.1, base.2.1, base.2.2.1⟩,
         base.2.2.2 "sessionid" "abc" (by decide),
         base.2.2.2 "tt-csrf" "xyz" (by decide)⟩

/-- C8 counterexample: for the 503 response whose body holds a real
newline, the error is `SIGN_NOT_200` but the raw body text is *not*
contained in the message - the f-string interpolates the *bytes repr*
`b\x27line1\nline2\x27` (backslash-n, two characters), not the body
itself. -/
theorem C8_counterexample_newline_body :
    (signFetchCall decodeW0 false st0 respNL).1.reasonOf = some .SIGN_NOT_200 ∧
    ¬ (respNL.body.data
        <:+: ((signFetchCall decodeW0 false st0 respNL).1.messageOf.getD "").data) ∧
    (pyBytesRepr respNL.body).data
      <:+: ((signFetchCall decodeW0 false st0 respNL).1.messageOf.getD "").data :=
  ⟨by decide, by decide, by decide⟩

/-- C8 amended: for every response whose status is neither 200 nor 429 and
whose body is non-empty, the outcome is `SIGN_NOT_200` and the error
message contains the actual status code and the Python `repr` of the body
bytes (quoted, with control and non-ASCII bytes escaped), not the raw body
text. -/
theorem C8_sign_not_200_includes_status
    (dec : String → Option WebcastResponse) (dis : Bool) (st : SessionState)
    (resp : Response) (h4 : resp.status_code ≠ 429)
    (h2 : resp.status_code ≠ 200) (hb : resp.body ≠ "") :
    (signFetchCall dec dis st resp).1.reasonOf = some .SIGN_NOT_200 ∧
    (toString resp.status_code).data
      <:+: ((signFetchCall dec dis st resp).1.messageOf.getD "").data ∧
    (pyBytesRepr resp.body).data
      <:+: ((signFetchCall dec dis st resp).1.messageOf.getD "").data := by
  have hres : (signFetchCall dec dis st resp).1
      = .apiError (SignAPIError.ofArgs .SIGN_NOT_200
          ["Failed request to Sign API with status code "
            ++ toString resp.status_code ++ " and payload \""
            ++ pyBytesRepr resp.body ++ "\"."]) := by
    simp only [signFetchCall]
    rw [if_neg h4, if_neg hb, if_pos h2]
  rw [hres]
  have hmsg : (FetchOutcome.apiError (SignAPIError.ofArgs .SIGN_NOT_200
        ["Failed request to Sign API with status code "
          ++ toString resp.status_code ++ " and payload \""
          ++ pyBytesRepr resp.body ++ "\"."])).messageOf.getD ""
      = "[SIGN_NOT_200]" ++ " " ++ ("Failed request to Sign API with status code "
          ++ toString resp.status_code ++ " and payload \""
          ++ pyBytesRepr resp.body ++ "\".") := rfl
  rw [hmsg]
  refine ⟨rfl, ?_, ?_⟩
  · refine ⟨("[SIGN_NOT_200]" ++ " " ++ "Failed request to Sign API with status code ").data,
      (" and payload \"" ++ pyBytesRepr resp.body ++ "\".").data, ?_⟩
    simp only [String.data_append, List.append_assoc]
  · refine ⟨(("[SIGN_NOT_200]" ++ " " ++ "Failed request to Sign API with status code ")
        ++ toString resp.status_code ++ " and payload \"").data,
      ("\".").data, ?_⟩
    simp only [String.data_append, List.append_assoc]

/-- C8 witness: the concrete 503 response with body `"oops"` produces
`SIGN_NOT_200` whose message contains `"503"` and `b\x27oops\x27`. -/
theorem C8_sign_not_200_includes_status_witness :
    resp503.status_code ≠ 429 ∧ resp503.status_code ≠ 200 ∧ resp503.body ≠ "" ∧
    ((signFetchCall decodeW0 false st0 resp503).1.reasonOf = some .SIGN_NOT_200 ∧
      (toString resp503.status_code).data
        <:+: ((signFetchCall decodeW0 false st0 resp503).1.messageOf.getD "").data ∧
      (pyBytesRepr resp503.body).data
        <:+: ((signFetchCall decodeW0 false st0 resp503).1.messageOf.getD "").data) :=
  ⟨by decide, by decide, by decide,
   C8_sign_not_200_includes_status decodeW0 false st0 resp503
     (by decide) (by decide) (by decide)⟩

/-- C9: every error produced by the sign-fetch exchange carries a
discriminant and a message prefixed with `"[{discriminant}]"`; the
rate-limit error built through the `SignatureRateLimitError` subclass
carries `RATE_LIMIT` and the `"[RATE_LIMIT]"` prefix. -/
theorem C9_error_discriminant_tagged
    (dec : String → Option WebcastResponse) (dis : Bool) (st : SessionState)
    (tr : Except String Response) :
    (∀ e : SignAPIError, (signFetchCallTop dec dis st tr).1 = .apiError e →
      ("[" ++ reasonName e.reason ++ "]").data <+: e.message.data) ∧
    (∀ e : SignatureRateLimitError,
      (signFetchCallTop dec dis st tr).1 = .rateLimited e →
      e.toErr.reason = .RATE_LIMIT ∧
      ("[RATE_LIMIT]").data <+: e.toErr.message.data) := by
  constructor
  · intro e
    cases tr with
    | error s =>
      intro heq
      cases heq
      exact ofArgs_message_tagged _ _
    | ok resp =>
      show (signFetchCall dec dis st resp).1 = .apiError e → _
      simp only [signFetchCall]
      repeat' split
      all_goals intro heq
      all_goals cases heq
      all_goals try exact ofArgs_message_tagged _ _
      all_goals rename_i hupd
      all_goals rw [updateTikTokCookies_emptyCookies_shape _ _ _ hupd]
      all_goals exact ofArgs_message_tagged _ _
  · intro e
    cases tr with
    | error s =>
      intro heq
      cases heq
    | ok resp =>
      show (signFetchCall dec dis st resp).1 = .rateLimited e → _
      simp only [signFetchCall]
      repeat' split
      all_goals intro heq
      all_goals cases heq
      all_goals rename_i hofa
      all_goals exact rateLimit_ofArgs_shape _ _ _ _ _ _ hofa

/-- C9 witness: the concrete `EMPTY_COOKIES` and `RATE_LIMIT` errors
produced by the exchange carry their discriminant prefix. -/
theorem C9_error_discriminant_tagged_witness :
    (("[" ++ reasonName e0.reason ++ "]").data <+: e0.message.data) ∧
    (e1.toErr.reason = .RATE_LIMIT ∧
      ("[RATE_LIMIT]").data <+: e1.toErr.message.data) :=
  ⟨(C9_error_discriminant_tagged decodeW0 false st0 (.ok respNoCookie)).1 e0
      (by decide),
   (C9_error_discriminant_tagged decodeW0 false st0 (.ok resp429NoHdrs)).2 e1
      (by decide)⟩

/-- C10: `ImageFetchRoute.__call__` on an `Image` message requests exactly
the first URL of `url_list` and returns the raw response body unchanged;
on an empty `url_list` the index access fails before any request is
issued, so no URL is ever requested. -/
theorem C10_image_fetch_first_url (transport : String → String) (im : Image) :
    (im.url_list = [] → imageFetchCall transport (.inr im) = (none, [])) ∧
    (∀ u : String, ∀ rest : List String, im.url_list = u :: rest →
      imageFetchCall transport (.inr im) = (some (transport u), [u])) := by
  constructor
  · intro hl
    simp [imageFetchCall, hl]
  · intro u rest hl
    simp [imageFetchCall, hl]

/-- C10 witness: with a two-URL image only the first URL is requested and
its body returned; with an empty list nothing is requested. -/
theorem C10_image_fetch_first_url_witness :
    imageFetchCall (fun s => s ++ "!") (.inr imgEmpty) = (none, []) ∧
    imageFetchCall (fun s => s ++ "!") (.inr imgW) = (some ("u1" ++ "!"), ["u1"]) :=
  ⟨(C10_image_fetch_first_url (fun s => s ++ "!") imgEmpty).1 rfl,
   (C10_image_fetch_first_url (fun s => s ++ "!") imgW).2 "u1" ["u2"] rfl⟩
